import Mathlib

/-!
Verification of the rule-dispatch evaluation engines of the
Recs_Valid_Checks_Tool repository (src/recon_engine.py and
src/validation_engine.py) against its natural-language specification.

Scalar cell values are embedded as `PyVal`: `vnull` models Python
`None`/`NaN` (the values for which `pd.isna` is true), `vnum q` models a
value whose `float(...)` coercion succeeds with result `q` (numbers and
numeric strings), and `vstr s` models a value for which `float(...)`
raises (non-numeric strings).  Machine floats are embedded as rationals;
the claims under study are exact-arithmetic properties.
-/

/-- A scalar cell value as seen by the engines (see module docstring). -/
inductive PyVal where
  | vnull : PyVal
  | vnum : ℚ → PyVal
  | vstr : String → PyVal
deriving DecidableEq, Repr

/-- `pd.isna(value)` for a scalar. -/
def PyVal.isna : PyVal → Bool
  | .vnull => true
  | _ => false

/-- The `float(value)` coercion attempt: `some` on success, `none` when the
coercion raises `ValueError`/`TypeError`. -/
def PyVal.toFloat : PyVal → Option ℚ
  | .vnum q => some q
  | _ => none

/-- `str(value)`.  The rendering of a numeric value is canonicalized
(`toString` of the rational); no claim inspects the string form of a
number. -/
def PyVal.pyStr : PyVal → String
  | .vnull => "None"
  | .vnum q => toString q
  | .vstr s => s

/-- The tolerance argument of `_compare_values`, a Python string:
`empty` is `""` (falsy), `nonnum s` is a non-empty string on which
`float(...)` raises, `num t` is a non-empty string parsing to `t`. -/
inductive TolStr where
  | empty : TolStr
  | nonnum : String → TolStr
  | num : ℚ → TolStr
deriving Repr

/-- The `difference` component returned by `_compare_values`: either a
number or a sentinel string. -/
inductive CompDiff where
  | dnum : ℚ → CompDiff
  | dstr : String → CompDiff
deriving DecidableEq, Repr

/-- The trailing string-comparison fallback of `_compare_values`
(src/recon_engine.py lines 705-709). -/
def stringCompare (v1 v2 : PyVal) : Bool × CompDiff :=
  let s1 := v1.pyStr.trim
  let s2 := v2.pyStr.trim
  (s1 == s2, if s1 = s2 then CompDiff.dnum 0 else CompDiff.dstr "String mismatch")

/-- `ReconciliationEngine._compare_values` (src/recon_engine.py lines
668-709).  The `try` block's exception path (a failing `float(...)` on
either value or on a non-empty tolerance string) falls through to the
string comparison, exactly as in the source. -/
def compareValues (v1 v2 : PyVal) (tolerance : TolStr) (toleranceType : String) :
    Bool × CompDiff :=
  if v1.isna && v2.isna then (true, CompDiff.dnum 0)
  else if v1.isna || v2.isna then (false, CompDiff.dstr "NULL mismatch")
  else
    match v1.toFloat, v2.toFloat with
    | some n1, some n2 =>
      let diff := |n1 - n2|
      match tolerance with
      | TolStr.empty => (decide (n1 = n2), CompDiff.dnum diff)
      | TolStr.nonnum _ =>
        if toleranceType = "" then (decide (n1 = n2), CompDiff.dnum diff)
        else stringCompare v1 v2
      | TolStr.num t =>
        if toleranceType = "" then (decide (n1 = n2), CompDiff.dnum diff)
        else if toleranceType = "percentage" then
          if n1 ≠ 0 then (decide ((diff / |n1|) * 100 ≤ t), CompDiff.dnum diff)
          else (decide (diff = 0), CompDiff.dnum diff)
        else if toleranceType = "absolute" then (decide (diff ≤ t), CompDiff.dnum diff)
        else if toleranceType = "days" then (decide (diff ≤ t), CompDiff.dnum diff)
        else (decide (n1 = n2), CompDiff.dnum diff)
    | _, _ => stringCompare v1 v2

/-- C1: for `compare(v1, v2, tolerance, "percentage")` with both values
non-null and numerically coercible and a numeric tolerance, writing
`diff = |num1 - num2|`: the returned difference is `diff`; if `num1 ≠ 0`
the values match iff `(diff / |num1|) * 100 ≤ tolerance`, and if
`num1 = 0` they match iff `diff = 0`. -/
theorem compare_percentage_spec (n1 n2 t : ℚ) :
    (compareValues (PyVal.vnum n1) (PyVal.vnum n2) (TolStr.num t) "percentage").2
      = CompDiff.dnum |n1 - n2|
    ∧ (n1 ≠ 0 →
        ((compareValues (PyVal.vnum n1) (PyVal.vnum n2) (TolStr.num t) "percentage").1 = true
          ↔ (|n1 - n2| / |n1|) * 100 ≤ t))
    ∧ (n1 = 0 →
        ((compareValues (PyVal.vnum n1) (PyVal.vnum n2) (TolStr.num t) "percentage").1 = true
          ↔ |n1 - n2| = 0)) := by
  by_cases h : n1 = 0 <;>
    simp [compareValues, PyVal.isna, PyVal.toFloat, h]

/-- Witness for C1 at a concrete input: base 100, other value 101,
tolerance 2 percent. -/
theorem compare_percentage_spec_witness :
    ((100 : ℚ) ≠ 0)
    ∧ ((compareValues (PyVal.vnum 100) (PyVal.vnum 101) (TolStr.num 2) "percentage").1 = true
        ↔ (|(100 : ℚ) - 101| / |(100 : ℚ)|) * 100 ≤ 2) :=
  ⟨by norm_num, (compare_percentage_spec 100 101 2).2.1 (by norm_num)⟩

/-- C7: for every tolerance and tolerance type, comparing two null values
returns `(True, 0)`, and comparing exactly one null value against a
non-null value returns `(False, "NULL mismatch")` in either order. -/
theorem compare_null_spec (tol : TolStr) (tt : String) (v : PyVal)
    (hv : v.isna = false) :
    compareValues PyVal.vnull PyVal.vnull tol tt = (true, CompDiff.dnum 0)
    ∧ compareValues PyVal.vnull v tol tt = (false, CompDiff.dstr "NULL mismatch")
    ∧ compareValues v PyVal.vnull tol tt = (false, CompDiff.dstr "NULL mismatch") := by
  cases v with
  | vnull => simp [PyVal.isna] at hv
  | vnum q => exact ⟨rfl, rfl, rfl⟩
  | vstr s => exact ⟨rfl, rfl, rfl⟩

/-- Witness for C7 at a concrete input: `compare(None, 5, "1", "absolute")`. -/
theorem compare_null_spec_witness :
    ((PyVal.vnum 5).isna = false)
    ∧ (compareValues PyVal.vnull PyVal.vnull (TolStr.num 1) "absolute"
        = (true, CompDiff.dnum 0)
      ∧ compareValues PyVal.vnull (PyVal.vnum 5) (TolStr.num 1) "absolute"
        = (false, CompDiff.dstr "NULL mismatch")
      ∧ compareValues (PyVal.vnum 5) PyVal.vnull (TolStr.num 1) "absolute"
        = (false, CompDiff.dstr "NULL mismatch")) :=
  ⟨rfl, compare_null_spec (TolStr.num 1) "absolute" (PyVal.vnum 5) rfl⟩

/-!
## Validation engine: result records and the `greater_than` / `less_than`
checks (src/validation_engine.py)

A dataset column is embedded as a list of `(record_key, value)` pairs:
the record key is the string `_get_record_key` produces for the row, and
the value is the row's cell in the checked column.
-/

/-- `ValidationResult` (src/validation_engine.py lines 16-27). -/
structure VResult where
  rule_id : String
  rule_name : String
  record_key : String
  column : String
  value : String
  expected : String
  status : String
  severity : String
  details : String
deriving DecidableEq, Repr

/-- `ValidationEngine._pass_result` (lines 855-868); its increment of
`rules_passed` is modelled at the call sites in the engine-run model. -/
def vPassResult (rule_id rule_name column : String) (count : Nat) : VResult :=
  { rule_id := rule_id, rule_name := rule_name, record_key := "ALL",
    column := column, value := toString count ++ " values", expected := "Valid",
    status := "PASS", severity := "INFO",
    details := "All " ++ toString count ++ " records passed validation" }

/-- `ValidationEngine._error_result` (lines 841-853). -/
def vErrorResult (rule_id rule_name msg : String) : VResult :=
  { rule_id := rule_id, rule_name := rule_name, record_key := "N/A",
    column := "N/A", value := "N/A", expected := "N/A",
    status := "ERROR", severity := "ERROR", details := msg }

/-- The FAIL-collecting loop of `_check_greater_than` (lines 268-294):
null values are skipped, numeric values `≤ threshold` fail, and a value
on which `float(...)` raises is caught by the `except` clause and
reported as a "not numeric" FAIL. -/
def gtFails (rule_id rule_name column severity : String) (threshold : ℚ) :
    List (String × PyVal) → List VResult
  | [] => []
  | (_, PyVal.vnull) :: rest => gtFails rule_id rule_name column severity threshold rest
  | (k, PyVal.vnum q) :: rest =>
    if q ≤ threshold then
      { rule_id := rule_id, rule_name := rule_name, record_key := k,
        column := column, value := (PyVal.vnum q).pyStr,
        expected := "> " ++ toString threshold, status := "FAIL",
        severity := severity,
        details := "Value " ++ (PyVal.vnum q).pyStr ++ " is not greater than "
          ++ toString threshold }
        :: gtFails rule_id rule_name column severity threshold rest
    else gtFails rule_id rule_name column severity threshold rest
  | (k, PyVal.vstr s) :: rest =>
    { rule_id := rule_id, rule_name := rule_name, record_key := k,
      column := column, value := s, expected := "> " ++ toString threshold,
      status := "FAIL", severity := severity,
      details := "Value '" ++ s ++ "' is not numeric" }
      :: gtFails rule_id rule_name column severity threshold rest

/-- `ValidationEngine._check_greater_than` (lines 254-297) on a resolved
column; the `_update_summary` side effect is modelled by the engine-run
model below. -/
def checkGreaterThan (rule_id rule_name column severity : String) (threshold : ℚ)
    (rows : List (String × PyVal)) : List VResult :=
  let fails := gtFails rule_id rule_name column severity threshold rows
  if fails.isEmpty then [vPassResult rule_id rule_name column rows.length] else fails

/-- The FAIL-collecting loop of `_check_less_than` (lines 313-329): null
values are skipped, numeric values `≥ threshold` fail, and a value on
which `float(...)` raises is caught by an `except` clause whose body is
`pass` — no result is recorded for it. -/
def ltFails (rule_id rule_name column severity : String) (threshold : ℚ) :
    List (String × PyVal) → List VResult
  | [] => []
  | (_, PyVal.vnull) :: rest => ltFails rule_id rule_name column severity threshold rest
  | (k, PyVal.vnum q) :: rest =>
    if threshold ≤ q then
      { rule_id := rule_id, rule_name := rule_name, record_key := k,
        column := column, value := (PyVal.vnum q).pyStr,
        expected := "< " ++ toString threshold, status := "FAIL",
        severity := severity,
        details := "Value " ++ (PyVal.vnum q).pyStr ++ " is not less than "
          ++ toString threshold }
        :: ltFails rule_id rule_name column severity threshold rest
    else ltFails rule_id rule_name column severity threshold rest
  | (_, PyVal.vstr _) :: rest => ltFails rule_id rule_name column severity threshold rest

/-- `ValidationEngine._check_less_than` (lines 299-332) on a resolved
column. -/
def checkLessThan (rule_id rule_name column severity : String) (threshold : ℚ)
    (rows : List (String × PyVal)) : List VResult :=
  let fails := ltFails rule_id rule_name column severity threshold rows
  if fails.isEmpty then [vPassResult rule_id rule_name column rows.length] else fails

/-- C2 counterexample: a `less_than` rule over a single record whose value
is the non-numeric string "abc" produces no FAIL result at all — the
check returns the aggregate PASS result, contradicting the claim that
non-numeric observed values fail for both check kinds. -/
theorem less_than_non_numeric_counterexample :
    checkLessThan "R1" "Amount below limit" "amount" "ERROR" 100
        [("K1", PyVal.vstr "abc")]
      = [vPassResult "R1" "Amount below limit" "amount" 1]
    ∧ (checkLessThan "R1" "Amount below limit" "amount" "ERROR" 100
        [("K1", PyVal.vstr "abc")]).filter (fun r => r.status == "FAIL") = [] := by
  exact ⟨rfl, rfl⟩

/-- Per-record fail predicate of `greater_than`: null never fails, a
numeric value fails iff it is `≤ threshold`, a non-numeric value always
fails. -/
def gtFailPred (threshold : ℚ) : String × PyVal → Bool
  | (_, PyVal.vnull) => false
  | (_, PyVal.vnum q) => decide (q ≤ threshold)
  | (_, PyVal.vstr _) => true

/-- Per-record fail predicate of `less_than`: null never fails, a numeric
value fails iff it is `≥ threshold`, a non-numeric value never fails. -/
def ltFailPred (threshold : ℚ) : String × PyVal → Bool
  | (_, PyVal.vnull) => false
  | (_, PyVal.vnum q) => decide (threshold ≤ q)
  | (_, PyVal.vstr _) => false

theorem gtFails_length (rid rname col sev : String) (t : ℚ)
    (rows : List (String × PyVal)) :
    (gtFails rid rname col sev t rows).length = rows.countP (gtFailPred t) := by
  induction rows with
  | nil => rfl
  | cons kv rest ih =>
    obtain ⟨k, v⟩ := kv
    cases v with
    | vnull => simpa [gtFails, gtFailPred, List.countP_cons] using ih
    | vnum q =>
      by_cases h : q ≤ t <;>
        simp [gtFails, gtFailPred, List.countP_cons, h, ih]
    | vstr s => simp [gtFails, gtFailPred, List.countP_cons, ih]

theorem ltFails_length (rid rname col sev : String) (t : ℚ)
    (rows : List (String × PyVal)) :
    (ltFails rid rname col sev t rows).length = rows.countP (ltFailPred t) := by
  induction rows with
  | nil => rfl
  | cons kv rest ih =>
    obtain ⟨k, v⟩ := kv
    cases v with
    | vnull => simpa [ltFails, ltFailPred, List.countP_cons] using ih
    | vnum q =>
      by_cases h : t ≤ q <;>
        simp [ltFails, ltFailPred, List.countP_cons, h, ih]
    | vstr s => simpa [ltFails, ltFailPred, List.countP_cons] using ih

theorem gtFails_status (rid rname col sev : String) (t : ℚ)
    (rows : List (String × PyVal)) :
    ∀ r ∈ gtFails rid rname col sev t rows, r.status = "FAIL" := by
  induction rows with
  | nil => intro r hr; cases hr
  | cons kv rest ih =>
    obtain ⟨k, v⟩ := kv
    cases v with
    | vnull => exact ih
    | vnum q =>
      by_cases h : q ≤ t
      · intro r hr
        rcases (by simpa [gtFails, h] using hr : _ ∨ _) with h1 | h1
        · rw [h1]
        · exact ih r h1
      · simpa [gtFails, h] using ih
    | vstr s =>
      intro r hr
      rcases (by simpa [gtFails] using hr : _ ∨ _) with h1 | h1
      · rw [h1]
      · exact ih r h1

theorem ltFails_status (rid rname col sev : String) (t : ℚ)
    (rows : List (String × PyVal)) :
    ∀ r ∈ ltFails rid rname col sev t rows, r.status = "FAIL" := by
  induction rows with
  | nil => intro r hr; cases hr
  | cons kv rest ih =>
    obtain ⟨k, v⟩ := kv
    cases v with
    | vnull => exact ih
    | vnum q =>
      by_cases h : t ≤ q
      · intro r hr
        rcases (by simpa [ltFails, h] using hr : _ ∨ _) with h1 | h1
        · rw [h1]
        · exact ih r h1
      · simpa [ltFails, h] using ih
    | vstr s => exact ih

/-- C2 amended: for `greater_than`, every record with a non-null value
failing numeric coercion (and every numeric value `≤ threshold`)
produces a FAIL result, while `less_than` produces FAIL results only
for numeric values `≥ threshold` — records whose value fails numeric
coercion are silently skipped by `less_than`. -/
theorem greater_less_non_numeric_amended (rid rname col sev : String) (t : ℚ)
    (rows : List (String × PyVal)) :
    ((checkGreaterThan rid rname col sev t rows).filter
        (fun r => r.status == "FAIL")).length = rows.countP (gtFailPred t)
    ∧ ((checkLessThan rid rname col sev t rows).filter
        (fun r => r.status == "FAIL")).length = rows.countP (ltFailPred t) := by
  constructor
  · by_cases h : (gtFails rid rname col sev t rows).isEmpty
    · rw [List.isEmpty_iff] at h
      simp [checkGreaterThan, h, vPassResult,
        ← gtFails_length rid rname col sev t rows]
    · have he : checkGreaterThan rid rname col sev t rows
          = gtFails rid rname col sev t rows := by
        simp [checkGreaterThan, h]
      rw [he, List.filter_eq_self.mpr, gtFails_length]
      intro r hr
      simpa using gtFails_status rid rname col sev t rows r hr
  · by_cases h : (ltFails rid rname col sev t rows).isEmpty
    · rw [List.isEmpty_iff] at h
      simp [checkLessThan, h, vPassResult,
        ← ltFails_length rid rname col sev t rows]
    · have he : checkLessThan rid rname col sev t rows
          = ltFails rid rname col sev t rows := by
        simp [checkLessThan, h]
      rw [he, List.filter_eq_self.mpr, ltFails_length]
      intro r hr
      simpa using ltFails_status rid rname col sev t rows r hr

/-!
## Reconciliation engine: result records and the `key_match` check
(src/recon_engine.py)

The key columns, already stringified (`df[key].astype(str)`), are
embedded as lists of strings; `set(....unique())` becomes `List.dedup`.
The Python iteration order over a set is arbitrary, so the claims under
study are about counts and key sets, which the model captures exactly.
-/

/-- `ReconciliationResult` (src/recon_engine.py lines 17-28); every field
used by the claims is a string in the constructions under study. -/
structure RResult where
  rule_id : String
  rule_name : String
  record_key : String
  source1_value : String
  source2_value : String
  difference : String
  status : String
  severity : String
  details : String
deriving DecidableEq, Repr

/-- The FAIL result built for a key present only in source 1
(src/recon_engine.py lines 243-254). -/
def missingIn2Result (rule_id rule_name k : String) : RResult :=
  { rule_id := rule_id, rule_name := rule_name, record_key := k,
    source1_value := "EXISTS", source2_value := "MISSING",
    difference := "Missing in Source 2", status := "FAIL", severity := "ERROR",
    details := "Record with key '" ++ k ++ "' exists in Source 1 but not in Source 2" }

/-- The FAIL result built for a key present only in source 2
(src/recon_engine.py lines 256-268). -/
def missingIn1Result (rule_id rule_name k : String) : RResult :=
  { rule_id := rule_id, rule_name := rule_name, record_key := k,
    source1_value := "MISSING", source2_value := "EXISTS",
    difference := "Missing in Source 1", status := "FAIL", severity := "ERROR",
    details := "Record with key '" ++ k ++ "' exists in Source 2 but not in Source 1" }

/-- The aggregate PASS result of `_check_key_match`
(src/recon_engine.py lines 270-281). -/
def keyMatchPassResult (rule_id rule_name : String) (n1 n2 m : Nat) : RResult :=
  { rule_id := rule_id, rule_name := rule_name, record_key := "ALL",
    source1_value := toString n1, source2_value := toString n2,
    difference := "0", status := "PASS", severity := "INFO",
    details := "All " ++ toString m ++ " keys matched between sources" }

/-- The distinct keys of the first column that are absent from the second. -/
def onlyInFirst (c1 c2 : List String) : List String :=
  c1.dedup.filter (fun k => decide (k ∉ c2.dedup))

/-- The distinct keys common to both columns. -/
def matchedKeys (c1 c2 : List String) : List String :=
  c1.dedup.filter (fun k => decide (k ∈ c2.dedup))

/-- `ReconciliationEngine._check_key_match` (src/recon_engine.py lines
228-286) after both sources and key columns have resolved: one FAIL per
key only in source 1, one FAIL per key only in source 2, and a single
PASS when there is no unmatched key.  The function also overwrites the
summary's `matched_records`/`unmatched_source1/2` fields (modelled by
the lengths of `matchedKeys`/`onlyInFirst`) and the pass/fail counters,
handled by the engine-run model. -/
def checkKeyMatch (rule_id rule_name : String) (c1 c2 : List String) : List RResult :=
  let results := (onlyInFirst c1 c2).map (missingIn2Result rule_id rule_name)
    ++ (onlyInFirst c2 c1).map (missingIn1Result rule_id rule_name)
  if results.isEmpty then
    [keyMatchPassResult rule_id rule_name c1.dedup.length c2.dedup.length
      (matchedKeys c1 c2).length]
  else results

theorem onlyInFirst_toFinset (c1 c2 : List String) :
    (onlyInFirst c1 c2).toFinset = c1.toFinset \ c2.toFinset := by
  ext x
  simp [onlyInFirst]

theorem onlyInFirst_length (c1 c2 : List String) :
    (onlyInFirst c1 c2).length = (c1.toFinset \ c2.toFinset).card := by
  have hnd : (onlyInFirst c1 c2).Nodup := List.Nodup.filter _ c1.nodup_dedup
  rw [← onlyInFirst_toFinset, List.toFinset_card_of_nodup hnd]

theorem onlyInFirst_eq_nil_iff (c1 c2 : List String) :
    onlyInFirst c1 c2 = [] ↔ c1.toFinset \ c2.toFinset = ∅ := by
  rw [← onlyInFirst_toFinset, List.toFinset_eq_empty_iff]

/-- C4: `key_match` emits exactly one FAIL per distinct key present only
in source 1 and one per distinct key present only in source 2 (the FAIL
record keys are exactly those key sets), a single PASS result when no
such key exists, and the matched/only-source1/only-source2 key sets
partition the union of the two key sets, so their cardinalities add up
to the union's. -/
theorem key_match_partition_spec (rid rname : String) (c1 c2 : List String) :
    (((checkKeyMatch rid rname c1 c2).filter
        (fun r => r.status == "FAIL" && r.difference == "Missing in Source 2")).map
        (fun r => r.record_key)).toFinset = c1.toFinset \ c2.toFinset
    ∧ ((checkKeyMatch rid rname c1 c2).filter
        (fun r => r.status == "FAIL" && r.difference == "Missing in Source 2")).length
      = (c1.toFinset \ c2.toFinset).card
    ∧ (((checkKeyMatch rid rname c1 c2).filter
        (fun r => r.status == "FAIL" && r.difference == "Missing in Source 1")).map
        (fun r => r.record_key)).toFinset = c2.toFinset \ c1.toFinset
    ∧ ((checkKeyMatch rid rname c1 c2).filter
        (fun r => r.status == "FAIL" && r.difference == "Missing in Source 1")).length
      = (c2.toFinset \ c1.toFinset).card
    ∧ (c1.toFinset \ c2.toFinset = ∅ → c2.toFinset \ c1.toFinset = ∅ →
        checkKeyMatch rid rname c1 c2
          = [keyMatchPassResult rid rname c1.dedup.length c2.dedup.length
              (matchedKeys c1 c2).length])
    ∧ (c1.toFinset ∩ c2.toFinset) ∪ (c1.toFinset \ c2.toFinset)
        ∪ (c2.toFinset \ c1.toFinset) = c1.toFinset ∪ c2.toFinset
    ∧ (c1.toFinset ∩ c2.toFinset).card + (c1.toFinset \ c2.toFinset).card
        + (c2.toFinset \ c1.toFinset).card = (c1.toFinset ∪ c2.toFinset).card := by
  have hfilter1 : (checkKeyMatch rid rname c1 c2).filter
      (fun r => r.status == "FAIL" && r.difference == "Missing in Source 2")
      = (onlyInFirst c1 c2).map (missingIn2Result rid rname) := by
    rw [checkKeyMatch]
    by_cases h : ((onlyInFirst c1 c2).map (missingIn2Result rid rname)
        ++ (onlyInFirst c2 c1).map (missingIn1Result rid rname)).isEmpty
    · rw [if_pos h]
      rw [List.isEmpty_iff, List.append_eq_nil, List.map_eq_nil_iff,
        List.map_eq_nil_iff] at h
      simp [keyMatchPassResult, h.1]
    · rw [if_neg h, List.filter_append, List.filter_eq_self.mpr,
        List.filter_eq_nil_iff.mpr, List.append_nil]
      · intro r hr
        obtain ⟨k, _, rfl⟩ := List.mem_map.mp hr
        simp [missingIn1Result]
      · intro r hr
        obtain ⟨k, _, rfl⟩ := List.mem_map.mp hr
        simp [missingIn2Result]
  have hfilter2 : (checkKeyMatch rid rname c1 c2).filter
      (fun r => r.status == "FAIL" && r.difference == "Missing in Source 1")
      = (onlyInFirst c2 c1).map (missingIn1Result rid rname) := by
    rw [checkKeyMatch]
    by_cases h : ((onlyInFirst c1 c2).map (missingIn2Result rid rname)
        ++ (onlyInFirst c2 c1).map (missingIn1Result rid rname)).isEmpty
    · rw [if_pos h]
      rw [List.isEmpty_iff, List.append_eq_nil, List.map_eq_nil_iff,
        List.map_eq_nil_iff] at h
      simp [keyMatchPassResult, h.2]
    · rw [if_neg h, List.filter_append, List.filter_eq_nil_iff.mpr,
        List.filter_eq_self.mpr, List.nil_append]
      · intro r hr
        obtain ⟨k, _, rfl⟩ := List.mem_map.mp hr
        simp [missingIn1Result]
      · intro r hr
        obtain ⟨k, _, rfl⟩ := List.mem_map.mp hr
        simp [missingIn2Result]
  have hcomp1 : ((fun r : RResult => r.record_key) ∘ missingIn2Result rid rname)
      = fun k => k := by
    funext k; rfl
  have hcomp2 : ((fun r : RResult => r.record_key) ∘ missingIn1Result rid rname)
      = fun k => k := by
    funext k; rfl
  have hmap1 : ((onlyInFirst c1 c2).map (missingIn2Result rid rname)).map
      (fun r => r.record_key) = onlyInFirst c1 c2 := by
    rw [List.map_map, hcomp1]
    exact List.map_id' _
  have hmap2 : ((onlyInFirst c2 c1).map (missingIn1Result rid rname)).map
      (fun r => r.record_key) = onlyInFirst c2 c1 := by
    rw [List.map_map, hcomp2]
    exact List.map_id' _
  have hu : (c1.toFinset ∩ c2.toFinset) ∪ (c1.toFinset \ c2.toFinset)
      ∪ (c2.toFinset \ c1.toFinset) = c1.toFinset ∪ c2.toFinset := by
    ext x
    by_cases h1 : x ∈ c1.toFinset <;> by_cases h2 : x ∈ c2.toFinset <;>
      simp [h1, h2]
  refine ⟨?_, ?_, ?_, ?_, ?_, hu, ?_⟩
  · rw [hfilter1, hmap1, onlyInFirst_toFinset]
  · rw [hfilter1, List.length_map, onlyInFirst_length]
  · rw [hfilter2, hmap2, onlyInFirst_toFinset]
  · rw [hfilter2, List.length_map, onlyInFirst_length]
  · intro h1 h2
    rw [checkKeyMatch]
    rw [← onlyInFirst_eq_nil_iff] at h1 h2
    simp [h1, h2]
  · have hd1 : Disjoint (c1.toFinset ∩ c2.toFinset) (c1.toFinset \ c2.toFinset) :=
      Finset.disjoint_left.mpr (fun a ha hb =>
        (Finset.mem_sdiff.mp hb).2 (Finset.mem_inter.mp ha).2)
    have hd2 : Disjoint ((c1.toFinset ∩ c2.toFinset) ∪ (c1.toFinset \ c2.toFinset))
        (c2.toFinset \ c1.toFinset) := by
      refine Finset.disjoint_left.mpr (fun a ha hb => ?_)
      have hnot := (Finset.mem_sdiff.mp hb).2
      rcases Finset.mem_union.mp ha with h | h
      · exact hnot (Finset.mem_inter.mp h).1
      · exact hnot (Finset.mem_sdiff.mp h).1
    rw [← Finset.card_union_of_disjoint hd1, ← Finset.card_union_of_disjoint hd2, hu]

/-- Witness for C4 at a concrete input: two sources with the same key set. -/
theorem key_match_partition_spec_witness :
    ((["A", "B"] : List String).toFinset \ (["B", "A"] : List String).toFinset = ∅
      ∧ (["B", "A"] : List String).toFinset \ (["A", "B"] : List String).toFinset = ∅)
    ∧ checkKeyMatch "R1" "Key Match" ["A", "B"] ["B", "A"]
      = [keyMatchPassResult "R1" "Key Match"
          (["A", "B"] : List String).dedup.length
          (["B", "A"] : List String).dedup.length
          (matchedKeys ["A", "B"] ["B", "A"]).length] :=
  ⟨⟨by decide, by decide⟩,
    (key_match_partition_spec "R1" "Key Match" ["A", "B"] ["B", "A"]).2.2.2.2.1
      (by decide) (by decide)⟩

/-!
## Data-source resolution by partial name match

`_get_source_by_name` exists in both engines; each is embedded over the
registry as an association list in registration order (Python dicts
preserve insertion order).  String operations are embedded over
character lists so that they compute by structural recursion.
-/

/-- Python's substring containment `needle in haystack` on character
lists. -/
def listContains (needle : List Char) : List Char → Bool
  | [] => needle.isEmpty
  | c :: t => needle.isPrefixOf (c :: t) || listContains needle t

theorem listContains_nil (l : List Char) : listContains [] l = true := by
  induction l with
  | nil => rfl
  | cons c t ih => simp [listContains, List.isPrefixOf]

/-- `str.lower()` on a character list (ASCII names in this code base). -/
def lcLower (l : List Char) : List Char := l.map Char.toLower

/-- Fuel-driven core of `str.replace(pat, "")`: deletes every
left-to-right non-overlapping occurrence of `pat`.  The fuel is the list
length, which bounds the recursion depth. -/
def removeAllAux (pat : List Char) : Nat → List Char → List Char
  | _, [] => []
  | 0, l => l
  | fuel + 1, c :: t =>
    if pat ≠ [] ∧ pat.isPrefixOf (c :: t) = true then
      removeAllAux pat fuel (List.drop (pat.length - 1) t)
    else c :: removeAllAux pat fuel t

/-- `str.replace(pat, "")` for a non-empty pattern. -/
def removeAll (pat l : List Char) : List Char := removeAllAux pat l.length l

/-- `ValidationEngine._get_source_by_name` (src/validation_engine.py
lines 175-180): first registered source whose lowered name contains the
lowered, extension-stripped reference. -/
def vGetSourceByName {α : Type} : List (String × α) → String → Option α
  | [], _ => none
  | (key, df) :: rest, name =>
    if listContains (removeAll ".csv".data (lcLower name.data)) (lcLower key.data) then
      some df
    else vGetSourceByName rest name

/-- The reference string after the reconciliation engine's normalisation
`name.lower().replace(".csv", "").replace("_", "")`. -/
def rNormName (name : String) : List Char :=
  removeAll "_".data (removeAll ".csv".data (lcLower name.data))

/-- The first loop of `ReconciliationEngine._get_source_by_name`
(src/recon_engine.py lines 655-658): substring containment in either
direction between the normalised reference and each lowered,
underscore-stripped registered name. -/
def rGetLoop {α : Type} (nameL : List Char) : List (String × α) → Option α
  | [] => none
  | (key, df) :: rest =>
    let keyL := removeAll "_".data (lcLower key.data)
    if listContains nameL keyL || listContains keyL nameL then some df
    else rGetLoop nameL rest

/-- `ReconciliationEngine._get_source_by_name` (src/recon_engine.py lines
652-666), including the source1/source2 fallback heuristic; registry
names are distinct Python dict keys. -/
def rGetSourceByName {α : Type} (sources : List (String × α)) (name : String) :
    Option α :=
  let nameL := rNormName name
  match rGetLoop nameL sources with
  | some df => some df
  | none =>
    let try1 : Option α :=
      if listContains "source1".data nameL || listContains "1".data nameL then
        (sources.find? (fun p => p.1 == "source1")).map (fun p => p.2)
      else none
    match try1 with
    | some df => some df
    | none =>
      if listContains "source2".data nameL || listContains "2".data nameL then
        (sources.find? (fun p => p.1 == "source2")).map (fun p => p.2)
      else none

/-- C9: resolving a blank (empty-string) source reference against a
non-empty registry never yields "not found": the empty string is a
substring of every name, so both engines return the first data source
in registration order. -/
theorem blank_source_resolution (α : Type) (key : String) (df : α)
    (rest : List (String × α)) :
    vGetSourceByName ((key, df) :: rest) "" = some df
    ∧ rGetSourceByName ((key, df) :: rest) "" = some df := by
  constructor
  · simp [vGetSourceByName,
      show removeAll ".csv".data (lcLower "".data) = [] from rfl,
      listContains_nil]
  · simp [rGetSourceByName, rGetLoop,
      show rNormName "" = [] from rfl,
      listContains_nil]

/-!
## Validation engine run model (src/validation_engine.py)

`execute_rule` / `run_all_rules` and the summary accounting.  The
per-check computation of the FAIL list is supplied as data
(`CheckBehavior`): every registered check follows a single shape —
build a list of FAIL results, call `_update_summary(results, len(df),
severity)`, and return the list or a single aggregate `_pass_result`
(configuration failures return a single `_error_result` without touching
the summary; an exception escapes to `execute_rule` before any summary
mutation of that rule happens, because every mutation in a check body is
performed after the last statement that can raise).
-/

/-- `str.lower()` on a Lean string. -/
def pyLowerStr (s : String) : String := String.mk (lcLower s.data)

/-- `str.upper()` on a Lean string. -/
def pyUpperStr (s : String) : String := String.mk (s.data.map Char.toUpper)

/-- `ValidationSummary` (src/validation_engine.py lines 30-40).
`records_passed` is an integer because it is computed by subtraction. -/
structure VSummary where
  total_records : Nat := 0
  records_passed : Int := 0
  records_with_errors : Nat := 0
  records_with_warnings : Nat := 0
  rules_executed : Nat := 0
  rules_passed : Nat := 0
  rules_failed : Nat := 0
  results : List VResult := []
deriving Repr

/-- A fresh summary, as created by `ValidationEngine.__init__`. -/
def initVSummary : VSummary := {}

/-- `ValidationEngine._update_summary` (lines 870-877); the source's
`total` parameter is unused by its body and omitted here. -/
def updateSummary (s : VSummary) (results : List VResult) (severity : String) :
    VSummary :=
  if results.isEmpty then s
  else
    let s1 := { s with rules_failed := s.rules_failed + 1 }
    if severity == "ERROR" then
      { s1 with records_with_errors := s1.records_with_errors + results.length }
    else
      { s1 with records_with_warnings := s1.records_with_warnings + results.length }

/-- What a dispatched validation check does (see section docstring):
`run severity column total fails` is the standard path with the rule's
severity, checked column, `len(df)` and the collected FAIL results;
`configError msg` is the early `[_error_result(...)]` return;
`raise msg` is an exception escaping the check body. -/
inductive CheckBehavior where
  | run : String → String → Nat → List VResult → CheckBehavior
  | configError : String → CheckBehavior
  | raise : String → CheckBehavior
deriving DecidableEq, Repr

/-- The keys of `ValidationEngine.check_functions` (lines 62-82). -/
def vKnownCheckTypes : List String :=
  ["not_null", "not_empty", "greater_than", "less_than", "between", "equals",
   "not_equals", "is_in_list", "not_in_list", "regex_match", "is_date",
   "is_numeric", "is_integer", "unique", "min_length", "max_length",
   "starts_with", "ends_with", "contains"]

/-- The SKIP result for an unknown check type (lines 145-155); takes the
already-lowered check type. -/
def vSkipResult (rule_id rule_name check_type_l : String) : VResult :=
  { rule_id := rule_id, rule_name := rule_name, record_key := "N/A",
    column := "N/A", value := "N/A", expected := "N/A",
    status := "SKIP", severity := "WARNING",
    details := "Unknown check type: " ++ check_type_l }

/-- `ValidationEngine.execute_rule` (lines 122-173): dispatch on the
lowered check type, with the unknown-type SKIP branch, the
`rules_executed` increment inside the `try`, and the `except` branch that
converts an exception into a single ERROR result. -/
def vExecuteRule (s : VSummary) (rule_id rule_name check_type : String)
    (b : CheckBehavior) : VSummary × List VResult :=
  let ct := pyLowerStr check_type
  if ct ∈ vKnownCheckTypes then
    match b with
    | CheckBehavior.run severity column total fails =>
      let s1 := updateSummary s fails severity
      if fails.isEmpty then
        ({ s1 with rules_passed := s1.rules_passed + 1,
                   rules_executed := s1.rules_executed + 1 },
         [vPassResult rule_id rule_name column total])
      else
        ({ s1 with rules_executed := s1.rules_executed + 1 }, fails)
    | CheckBehavior.configError msg =>
      ({ s with rules_executed := s.rules_executed + 1 },
       [vErrorResult rule_id rule_name msg])
    | CheckBehavior.raise msg =>
      (s, [vErrorResult rule_id rule_name ("Execution error: " ++ msg)])
  else
    ({ s with rules_executed := s.rules_executed + 1 },
     [vSkipResult rule_id rule_name ct])

/-- A validation rule as consumed by `run_all_rules`, with its check's
behaviour. -/
structure VRuleSpec where
  rule_id : String
  rule_name : String
  check_type : String
  active : String
  behavior : CheckBehavior
deriving DecidableEq, Repr

/-- One iteration of the rule loop of `run_all_rules` (lines 896-901). -/
def vStep (s : VSummary) (r : VRuleSpec) : VSummary :=
  if pyUpperStr r.active == "TRUE" then
    let p := vExecuteRule s r.rule_id r.rule_name r.check_type r.behavior
    { p.1 with results := p.1.results ++ p.2 }
  else s

/-- The size of the `failed_records` set of `run_all_rules`
(lines 904-909): distinct record keys among FAIL-status results. -/
def failedKeyCount (results : List VResult) : Nat :=
  (((results.filter (fun r => r.status == "FAIL")).map
    (fun r => r.record_key)).dedup).length

/-- `ValidationEngine.run_all_rules` (lines 879-915) on a fresh engine:
`total_records` is set once, before any rule runs, from the first
registered data source (the registry is carried as `(name, row count)`
pairs in registration order); then the active rules run in order; then
`records_passed` is computed once from the final result list. -/
def vRunAllRules (sources : List (String × Nat)) (rules : List VRuleSpec) :
    VSummary :=
  let s0 : VSummary :=
    match sources with
    | [] => initVSummary
    | (_, n) :: _ => { initVSummary with total_records := n }
  let s1 := rules.foldl vStep s0
  { s1 with records_passed :=
      (s1.total_records : Int) - (failedKeyCount s1.results : Int) }

/-- The results contributed by one rule (independent of the running
summary). -/
def ruleResults (r : VRuleSpec) : List VResult :=
  if pyUpperStr r.active == "TRUE" then
    (vExecuteRule initVSummary r.rule_id r.rule_name r.check_type r.behavior).2
  else []

/-- The FAIL results a rule's check collected, as seen by the engine:
empty unless the rule is active with a known check type and a standard
run. -/
def ruleFails (r : VRuleSpec) : List VResult :=
  if pyUpperStr r.active == "TRUE" then
    if pyLowerStr r.check_type ∈ vKnownCheckTypes then
      match r.behavior with
      | CheckBehavior.run _ _ _ fails => fails
      | _ => []
    else []
  else []

/-- The fail list carried by a behaviour, before any engine gating. -/
def behaviorFails : CheckBehavior → List VResult
  | CheckBehavior.run _ _ _ fails => fails
  | _ => []

/-- The amount `records_with_errors` grows by for one rule. -/
def errDelta (r : VRuleSpec) : Nat :=
  if pyUpperStr r.active == "TRUE" then
    if pyLowerStr r.check_type ∈ vKnownCheckTypes then
      match r.behavior with
      | CheckBehavior.run sev _ _ fails => if sev == "ERROR" then fails.length else 0
      | _ => 0
    else 0
  else 0

/-- The amount `records_with_warnings` grows by for one rule. -/
def warnDelta (r : VRuleSpec) : Nat :=
  if pyUpperStr r.active == "TRUE" then
    if pyLowerStr r.check_type ∈ vKnownCheckTypes then
      match r.behavior with
      | CheckBehavior.run sev _ _ fails => if sev == "ERROR" then 0 else fails.length
      | _ => 0
    else 0
  else 0

theorem vExecuteRule_results_const (s s' : VSummary) (rid rname ct : String)
    (b : CheckBehavior) :
    (vExecuteRule s rid rname ct b).2 = (vExecuteRule s' rid rname ct b).2 := by
  unfold vExecuteRule
  by_cases h : pyLowerStr ct ∈ vKnownCheckTypes
  · cases b with
    | run sev col tot fails =>
      by_cases hf : fails.isEmpty <;> simp [h, hf]
    | configError msg => simp [h]
    | raise msg => simp [h]
  · simp [h]

theorem vStep_spec (s : VSummary) (r : VRuleSpec) :
    (vStep s r).records_with_errors = s.records_with_errors + errDelta r
    ∧ (vStep s r).records_with_warnings = s.records_with_warnings + warnDelta r
    ∧ (vStep s r).results = s.results ++ ruleResults r
    ∧ (vStep s r).total_records = s.total_records := by
  unfold vStep ruleResults errDelta warnDelta vExecuteRule updateSummary
  by_cases ha : pyUpperStr r.active == "TRUE"
  · by_cases h : pyLowerStr r.check_type ∈ vKnownCheckTypes
    · cases hb : r.behavior with
      | run sev col tot fails =>
        by_cases hf : fails.isEmpty
        · have hlen : fails.length = 0 := by
            rw [List.isEmpty_iff] at hf
            simp [hf]
          by_cases hs : sev == "ERROR" <;> simp [ha, h, hb, hf, hs, hlen]
        · by_cases hs : sev == "ERROR" <;> simp [ha, h, hb, hf, hs]
      | configError msg => simp [ha, h, hb]
      | raise msg => simp [ha, h, hb]
    · simp [ha, h]
  · simp [ha]

theorem vFold_spec (rules : List VRuleSpec) (s : VSummary) :
    (rules.foldl vStep s).records_with_errors
      = s.records_with_errors + (rules.map errDelta).sum
    ∧ (rules.foldl vStep s).records_with_warnings
      = s.records_with_warnings + (rules.map warnDelta).sum
    ∧ (rules.foldl vStep s).results = s.results ++ (rules.map ruleResults).flatten
    ∧ (rules.foldl vStep s).total_records = s.total_records := by
  induction rules generalizing s with
  | nil => simp
  | cons r rest ih =>
    obtain ⟨h1, h2, h3, h4⟩ := vStep_spec s r
    obtain ⟨g1, g2, g3, g4⟩ := ih (vStep s r)
    refine ⟨?_, ?_, ?_, ?_⟩ <;>
      simp [g1, g2, g3, g4, h1, h2, h3, h4, add_assoc]

/-- C10: `total_records` equals the row count of the first-registered
data source regardless of the rule list (so regardless of which data
source each rule references), and `records_passed` is computed against
that single count as `total_records` minus the number of distinct record
keys among FAIL results of the whole run. -/
theorem total_records_first_source (name : String) (n : Nat)
    (rest : List (String × Nat)) (rules : List VRuleSpec) :
    (vRunAllRules ((name, n) :: rest) rules).total_records = n
    ∧ (vRunAllRules ((name, n) :: rest) rules).records_passed
      = (n : Int)
        - (failedKeyCount (vRunAllRules ((name, n) :: rest) rules).results : Int) := by
  have h := vFold_spec rules { initVSummary with total_records := n }
  unfold vRunAllRules
  exact ⟨h.2.2.2, by simp [h.2.2.2]⟩

theorem filter_flatten_eq (p : VResult → Bool) (L : List (List VResult)) :
    L.flatten.filter p = (L.map (fun l => l.filter p)).flatten := by
  induction L with
  | nil => rfl
  | cons l L ih => simp [List.filter_append, ih]

theorem ruleResults_filter_fail (r : VRuleSpec)
    (hr : ∀ x ∈ behaviorFails r.behavior, x.status = "FAIL") :
    (ruleResults r).filter (fun x => x.status == "FAIL") = ruleFails r := by
  unfold ruleResults ruleFails vExecuteRule
  by_cases ha : pyUpperStr r.active == "TRUE"
  · by_cases h : pyLowerStr r.check_type ∈ vKnownCheckTypes
    · cases hb : r.behavior with
      | run sev col tot fails =>
        by_cases hf : fails.isEmpty
        · rw [List.isEmpty_iff] at hf
          simp [ha, h, hb, hf, vPassResult]
        · rw [if_pos ha, if_pos ha, if_pos h, if_pos h]
          simp only [hb, hf, if_neg]
          simp only [Bool.false_eq_true, if_false]
          apply List.filter_eq_self.mpr
          intro x hx
          have := hr x (by simpa [hb, behaviorFails] using hx)
          simp [this]
      | configError msg => simp [ha, h, hb, vErrorResult]
      | raise msg => simp [ha, h, hb, vErrorResult]
    · simp [ha, h, vSkipResult]
  · simp [ha]

/-- C3: after a fresh run, `records_with_errors` is the total count of
FAIL results produced by active rules of severity "ERROR",
`records_with_warnings` the total count of FAIL results produced by
active rules of any other severity (both counted per FAIL result), and
`records_passed` is `total_records` minus the number of distinct record
keys appearing in any FAIL result. -/
theorem summary_accounting_spec (sources : List (String × Nat))
    (rules : List VRuleSpec)
    (hf : ∀ r ∈ rules, ∀ x ∈ behaviorFails r.behavior, x.status = "FAIL") :
    (vRunAllRules sources rules).records_with_errors = (rules.map errDelta).sum
    ∧ (vRunAllRules sources rules).records_with_warnings
      = (rules.map warnDelta).sum
    ∧ (vRunAllRules sources rules).records_passed
      = ((vRunAllRules sources rules).total_records : Int)
        - ((((rules.map ruleFails).flatten.map
            (fun x => x.record_key)).toFinset.card : Nat) : Int) := by
  have hmaps : (rules.map ((fun l => l.filter (fun r => r.status == "FAIL"))
      ∘ ruleResults)) = rules.map ruleFails :=
    List.map_congr_left (fun r hr => ruleResults_filter_fail r (hf r hr))
  have hkey : ∀ s0 : VSummary, s0.results = [] →
      failedKeyCount (rules.foldl vStep s0).results
        = ((rules.map ruleFails).flatten.map (fun x => x.record_key)).toFinset.card := by
    intro s0 h0
    have h := (vFold_spec rules s0).2.2.1
    unfold failedKeyCount
    rw [h, h0, List.nil_append, filter_flatten_eq, List.map_map, hmaps,
      List.card_toFinset]
  cases sources with
  | nil =>
    refine ⟨?_, ?_, ?_⟩
    · show (rules.foldl vStep initVSummary).records_with_errors = _
      simpa [initVSummary] using (vFold_spec rules initVSummary).1
    · show (rules.foldl vStep initVSummary).records_with_warnings = _
      simpa [initVSummary] using (vFold_spec rules initVSummary).2.1
    · show ((rules.foldl vStep initVSummary).total_records : Int)
          - (failedKeyCount (rules.foldl vStep initVSummary).results : Int)
        = ((rules.foldl vStep initVSummary).total_records : Int) - _
      rw [hkey initVSummary rfl]
  | cons p rest =>
    obtain ⟨nm, n⟩ := p
    refine ⟨?_, ?_, ?_⟩
    · show (rules.foldl vStep { initVSummary with total_records := n }).records_with_errors = _
      simpa [initVSummary] using
        (vFold_spec rules { initVSummary with total_records := n }).1
    · show (rules.foldl vStep { initVSummary with total_records := n }).records_with_warnings = _
      simpa [initVSummary] using
        (vFold_spec rules { initVSummary with total_records := n }).2.1
    · show ((rules.foldl vStep { initVSummary with total_records := n }).total_records : Int)
          - (failedKeyCount
              (rules.foldl vStep { initVSummary with total_records := n }).results : Int)
        = ((rules.foldl vStep { initVSummary with total_records := n }).total_records : Int) - _
      rw [hkey { initVSummary with total_records := n } rfl]

/-- Witness for C3 at a concrete run: one active ERROR-severity rule with
one FAIL result over a two-row source. -/
theorem summary_accounting_spec_witness :
    (∀ r ∈ [VRuleSpec.mk "R1" "Rule" "not_null" "TRUE"
        (CheckBehavior.run "ERROR" "amount" 2
          [VResult.mk "R1" "Rule" "K1" "amount" "NULL" "NOT NULL" "FAIL" "ERROR" "d"])],
      ∀ x ∈ behaviorFails r.behavior, x.status = "FAIL")
    ∧ ((vRunAllRules [("src", 2)]
          [VRuleSpec.mk "R1" "Rule" "not_null" "TRUE"
            (CheckBehavior.run "ERROR" "amount" 2
              [VResult.mk "R1" "Rule" "K1" "amount" "NULL" "NOT NULL" "FAIL" "ERROR" "d"])]).records_with_errors
        = (([VRuleSpec.mk "R1" "Rule" "not_null" "TRUE"
            (CheckBehavior.run "ERROR" "amount" 2
              [VResult.mk "R1" "Rule" "K1" "amount" "NULL" "NOT NULL" "FAIL" "ERROR" "d"])]).map errDelta).sum
      ∧ (vRunAllRules [("src", 2)]
          [VRuleSpec.mk "R1" "Rule" "not_null" "TRUE"
            (CheckBehavior.run "ERROR" "amount" 2
              [VResult.mk "R1" "Rule" "K1" "amount" "NULL" "NOT NULL" "FAIL" "ERROR" "d"])]).records_with_warnings
        = (([VRuleSpec.mk "R1" "Rule" "not_null" "TRUE"
            (CheckBehavior.run "ERROR" "amount" 2
              [VResult.mk "R1" "Rule" "K1" "amount" "NULL" "NOT NULL" "FAIL" "ERROR" "d"])]).map warnDelta).sum
      ∧ (vRunAllRules [("src", 2)]
          [VRuleSpec.mk "R1" "Rule" "not_null" "TRUE"
            (CheckBehavior.run "ERROR" "amount" 2
              [VResult.mk "R1" "Rule" "K1" "amount" "NULL" "NOT NULL" "FAIL" "ERROR" "d"])]).records_passed
        = ((vRunAllRules [("src", 2)]
            [VRuleSpec.mk "R1" "Rule" "not_null" "TRUE"
              (CheckBehavior.run "ERROR" "amount" 2
                [VResult.mk "R1" "Rule" "K1" "amount" "NULL" "NOT NULL" "FAIL" "ERROR" "d"])]).total_records : Int)
          - (((([VRuleSpec.mk "R1" "Rule" "not_null" "TRUE"
              (CheckBehavior.run "ERROR" "amount" 2
                [VResult.mk "R1" "Rule" "K1" "amount" "NULL" "NOT NULL" "FAIL" "ERROR" "d"])]).map ruleFails).flatten.map
              (fun x => x.record_key)).toFinset.card : Nat)) :=
  ⟨by decide,
    summary_accounting_spec [("src", 2)]
      [VRuleSpec.mk "R1" "Rule" "not_null" "TRUE"
        (CheckBehavior.run "ERROR" "amount" 2
          [VResult.mk "R1" "Rule" "K1" "amount" "NULL" "NOT NULL" "FAIL" "ERROR" "d"])]
      (by decide)⟩

/-!
## Reconciliation engine run model (src/recon_engine.py)

`execute_rule` / `run_all_rules`.  A dispatched reconciliation check is
supplied as data (`RCheckBehavior`): `run upd rs` is a completed check
returning results `rs` after applying counter updates `upd` to the
summary, and `raise upd msg` is a check aborted by an exception after
the partial summary updates `upd` (reconciliation checks mutate summary
fields before later statements that can raise, so partial updates must
be representable).
-/

/-- `ReconciliationSummary` (src/recon_engine.py lines 31-43). -/
structure RSummary where
  total_records_source1 : Nat := 0
  total_records_source2 : Nat := 0
  matched_records : Nat := 0
  unmatched_source1 : Nat := 0
  unmatched_source2 : Nat := 0
  value_discrepancies : Nat := 0
  rules_executed : Nat := 0
  rules_passed : Nat := 0
  rules_failed : Nat := 0
  results : List RResult := []

/-- A fresh summary, as created by `ReconciliationEngine.__init__`. -/
def initRSummary : RSummary := {}

/-- What a dispatched reconciliation check does (see section
docstring). -/
inductive RCheckBehavior where
  | run : (RSummary → RSummary) → List RResult → RCheckBehavior
  | raise : (RSummary → RSummary) → String → RCheckBehavior

/-- The check types dispatched by `ReconciliationEngine.execute_rule`
(lines 144-155). -/
def rKnownCheckTypes : List String :=
  ["key_match", "value_equals", "fuzzy_match", "aggregate_sum",
   "aggregate_count", "aggregate_avg"]

/-- The SKIP result for an unknown check type (lines 156-168); takes the
already-lowered check type. -/
def rSkipResult (rule_id rule_name check_type_l : String) : RResult :=
  { rule_id := rule_id, rule_name := rule_name, record_key := "N/A",
    source1_value := "N/A", source2_value := "N/A", difference := "N/A",
    status := "SKIP", severity := "WARNING",
    details := "Unknown check type: " ++ check_type_l }

/-- The ERROR result of the `except` branch (lines 172-184). -/
def rErrorResult (rule_id rule_name msg : String) : RResult :=
  { rule_id := rule_id, rule_name := rule_name, record_key := "N/A",
    source1_value := "N/A", source2_value := "N/A", difference := "N/A",
    status := "ERROR", severity := "ERROR",
    details := "Execution error: " ++ msg }

/-- `ReconciliationEngine.execute_rule` (lines 124-186): the check type is
lowered, dispatched against the known set (unknown types produce the
single SKIP result inside the `try`), `rules_executed` is incremented
inside the `try`, and an exception is converted to a single ERROR
result. -/
def rExecuteRule (s : RSummary) (rule_id rule_name check_type : String)
    (b : RCheckBehavior) : RSummary × List RResult :=
  let ct := pyLowerStr check_type
  if ct ∈ rKnownCheckTypes then
    match b with
    | RCheckBehavior.run upd rs =>
      let s1 := upd s
      ({ s1 with rules_executed := s1.rules_executed + 1 }, rs)
    | RCheckBehavior.raise upd msg =>
      (upd s, [rErrorResult rule_id rule_name msg])
  else
    ({ s with rules_executed := s.rules_executed + 1 },
     [rSkipResult rule_id rule_name ct])

/-- A reconciliation rule as consumed by `run_all_rules`. -/
structure RRuleSpec where
  rule_id : String
  rule_name : String
  check_type : String
  active : String
  behavior : RCheckBehavior

/-- One iteration of the rule loop of `run_all_rules` (lines 723-728). -/
def rStep (s : RSummary) (r : RRuleSpec) : RSummary :=
  if pyUpperStr r.active == "TRUE" then
    let p := rExecuteRule s r.rule_id r.rule_name r.check_type r.behavior
    { p.1 with results := p.1.results ++ p.2 }
  else s

/-- `ReconciliationEngine.run_all_rules` (lines 711-734) on a fresh
engine. -/
def rRunAllRules (rules : List RRuleSpec) : RSummary :=
  rules.foldl rStep initRSummary

/-- The results contributed by one reconciliation rule. -/
def rRuleResults (r : RRuleSpec) : List RResult :=
  if pyUpperStr r.active == "TRUE" then
    (rExecuteRule initRSummary r.rule_id r.rule_name r.check_type r.behavior).2
  else []

/-- The checks only mutate summary counters, never the result list; a
behaviour with that property is tame.  Every check in the source has it:
none of them touches `summary.results`. -/
def rBehaviorTame : RCheckBehavior → Prop
  | RCheckBehavior.run upd _ => ∀ s, (upd s).results = s.results
  | RCheckBehavior.raise upd _ => ∀ s, (upd s).results = s.results

theorem rStep_results (s : RSummary) (r : RRuleSpec)
    (ht : rBehaviorTame r.behavior) :
    (rStep s r).results = s.results ++ rRuleResults r := by
  unfold rStep rRuleResults rExecuteRule
  by_cases ha : pyUpperStr r.active == "TRUE"
  · by_cases h : pyLowerStr r.check_type ∈ rKnownCheckTypes
    · cases hb : r.behavior with
      | run upd rs =>
        rw [hb] at ht
        simp [ha, h, ht s]
      | raise upd msg =>
        rw [hb] at ht
        simp [ha, h, ht s]
    · simp [ha, h]
  · simp [ha]

theorem rFold_results (rules : List RRuleSpec) (s : RSummary)
    (ht : ∀ r ∈ rules, rBehaviorTame r.behavior) :
    (rules.foldl rStep s).results = s.results ++ (rules.map rRuleResults).flatten := by
  induction rules generalizing s with
  | nil => simp
  | cons r rest ih =>
    have h1 := rStep_results s r (ht r (List.mem_cons_self r rest))
    have h2 := ih (rStep s r) (fun x hx => ht x (List.mem_cons_of_mem r hx))
    simp [h2, h1]

/-- C5: an exception while evaluating an active rule is caught at the
per-rule boundary and replaced by exactly one ERROR result (in both
engines); the run folds every active rule's results into the summary, so
evaluation of the remaining rules proceeds; and every evaluated active
rule contributes at least one result (in the reconciliation engine,
granted that a completed check returns a non-empty list — which
`checkKeyMatch`, `checkGreaterThan` and `checkLessThan` witness for
their check kinds). -/
theorem rule_error_isolation_spec :
    (∀ (s : VSummary) (rid rname ct : String) (b : CheckBehavior),
        (vExecuteRule s rid rname ct b).2 ≠ [])
    ∧ (∀ (s : VSummary) (rid rname ct msg : String),
        pyLowerStr ct ∈ vKnownCheckTypes →
        (vExecuteRule s rid rname ct (CheckBehavior.raise msg)).2
          = [vErrorResult rid rname ("Execution error: " ++ msg)])
    ∧ (∀ (sources : List (String × Nat)) (rules : List VRuleSpec),
        (vRunAllRules sources rules).results = (rules.map ruleResults).flatten)
    ∧ (∀ r : VRuleSpec, pyUpperStr r.active == "TRUE" → ruleResults r ≠ [])
    ∧ (∀ (s : RSummary) (rid rname ct msg : String) (upd : RSummary → RSummary),
        pyLowerStr ct ∈ rKnownCheckTypes →
        (rExecuteRule s rid rname ct (RCheckBehavior.raise upd msg)).2
          = [rErrorResult rid rname msg])
    ∧ (∀ (rules : List RRuleSpec), (∀ r ∈ rules, rBehaviorTame r.behavior) →
        (rRunAllRules rules).results = (rules.map rRuleResults).flatten)
    ∧ (∀ (s : RSummary) (rid rname ct : String) (b : RCheckBehavior),
        (∀ upd rs, b = RCheckBehavior.run upd rs → rs ≠ []) →
        (rExecuteRule s rid rname ct b).2 ≠ [])
    ∧ (∀ (rid rname : String) (c1 c2 : List String),
        checkKeyMatch rid rname c1 c2 ≠ [])
    ∧ (∀ (rid rname col sev : String) (t : ℚ) (rows : List (String × PyVal)),
        checkGreaterThan rid rname col sev t rows ≠ []
          ∧ checkLessThan rid rname col sev t rows ≠ []) := by
  refine ⟨?_, ?_, ?_, ?_, ?_, ?_, ?_, ?_, ?_⟩
  · intro s rid rname ct b
    unfold vExecuteRule
    by_cases h : pyLowerStr ct ∈ vKnownCheckTypes
    · cases b with
      | run sev col tot fails =>
        by_cases hf : fails.isEmpty
        · simp [h, hf]
        · have hne : fails ≠ [] := fun he => hf (by simp [he])
          simp [h, hf, hne]
      | configError msg => simp [h]
      | raise msg => simp [h]
    · simp [h]
  · intro s rid rname ct msg h
    simp [vExecuteRule, h]
  · intro sources rules
    cases sources with
    | nil =>
      show (rules.foldl vStep initVSummary).results = _
      simpa [initVSummary] using (vFold_spec rules initVSummary).2.2.1
    | cons p rest =>
      obtain ⟨nm, n⟩ := p
      show (rules.foldl vStep { initVSummary with total_records := n }).results = _
      simpa [initVSummary] using
        (vFold_spec rules { initVSummary with total_records := n }).2.2.1
  · intro r ha
    unfold ruleResults
    rw [if_pos ha]
    unfold vExecuteRule
    by_cases h : pyLowerStr r.check_type ∈ vKnownCheckTypes
    · cases hb : r.behavior with
      | run sev col tot fails =>
        by_cases hf : fails.isEmpty
        · simp [h, hf]
        · have hne : fails ≠ [] := fun he => hf (by simp [he])
          simp [h, hf, hne]
      | configError msg => simp [h]
      | raise msg => simp [h]
    · simp [h]
  · intro s rid rname ct msg upd h
    simp [rExecuteRule, h]
  · intro rules ht
    unfold rRunAllRules
    simpa [initRSummary] using rFold_results rules initRSummary ht
  · intro s rid rname ct b hrun
    unfold rExecuteRule
    by_cases h : pyLowerStr ct ∈ rKnownCheckTypes
    · cases b with
      | run upd rs => simpa [h] using hrun upd rs rfl
      | raise upd msg => simp [h]
    · simp [h]
  · intro rid rname c1 c2
    unfold checkKeyMatch
    by_cases h : ((onlyInFirst c1 c2).map (missingIn2Result rid rname)
        ++ (onlyInFirst c2 c1).map (missingIn1Result rid rname)).isEmpty
    · simp [h]
    · have hne : (onlyInFirst c1 c2).map (missingIn2Result rid rname)
          ++ (onlyInFirst c2 c1).map (missingIn1Result rid rname) ≠ [] :=
        fun he => h (by simp [he])
      simp [h, hne]
  · intro rid rname col sev t rows
    constructor
    · unfold checkGreaterThan
      by_cases h : (gtFails rid rname col sev t rows).isEmpty
      · simp [h]
      · have hne : gtFails rid rname col sev t rows ≠ [] :=
          fun he => h (by simp [he])
        simp [h, hne]
    · unfold checkLessThan
      by_cases h : (ltFails rid rname col sev t rows).isEmpty
      · simp [h]
      · have hne : ltFails rid rname col sev t rows ≠ [] :=
          fun he => h (by simp [he])
        simp [h, hne]

/-- Witness for C5 at a concrete input: a known check type raising an
exception yields the single ERROR result. -/
theorem rule_error_isolation_spec_witness :
    (pyLowerStr "not_null" ∈ vKnownCheckTypes)
    ∧ (vExecuteRule initVSummary "R1" "Rule" "not_null"
        (CheckBehavior.raise "boom")).2
      = [vErrorResult "R1" "Rule" ("Execution error: " ++ "boom")] :=
  ⟨by decide,
    rule_error_isolation_spec.2.1 initVSummary "R1" "Rule" "not_null" "boom"
      (by decide)⟩

/-- C8: in both engines, a rule whose lowered check type is outside the
known set yields exactly one SKIP result with WARNING severity, and the
`rules_passed` / `rules_failed` counters are unchanged. -/
theorem unknown_check_type_spec (sv : VSummary) (sr : RSummary)
    (rid rname ct : String) (b : CheckBehavior) (b2 : RCheckBehavior)
    (h1 : pyLowerStr ct ∉ vKnownCheckTypes)
    (h2 : pyLowerStr ct ∉ rKnownCheckTypes) :
    vExecuteRule sv rid rname ct b
      = ({ sv with rules_executed := sv.rules_executed + 1 },
         [vSkipResult rid rname (pyLowerStr ct)])
    ∧ (vSkipResult rid rname (pyLowerStr ct)).status = "SKIP"
    ∧ (vSkipResult rid rname (pyLowerStr ct)).severity = "WARNING"
    ∧ (vExecuteRule sv rid rname ct b).1.rules_passed = sv.rules_passed
    ∧ (vExecuteRule sv rid rname ct b).1.rules_failed = sv.rules_failed
    ∧ rExecuteRule sr rid rname ct b2
      = ({ sr with rules_executed := sr.rules_executed + 1 },
         [rSkipResult rid rname (pyLowerStr ct)])
    ∧ (rSkipResult rid rname (pyLowerStr ct)).status = "SKIP"
    ∧ (rSkipResult rid rname (pyLowerStr ct)).severity = "WARNING"
    ∧ (rExecuteRule sr rid rname ct b2).1.rules_passed = sr.rules_passed
    ∧ (rExecuteRule sr rid rname ct b2).1.rules_failed = sr.rules_failed := by
  have hv : vExecuteRule sv rid rname ct b
      = ({ sv with rules_executed := sv.rules_executed + 1 },
         [vSkipResult rid rname (pyLowerStr ct)]) := by
    simp [vExecuteRule, h1]
  have hr : rExecuteRule sr rid rname ct b2
      = ({ sr with rules_executed := sr.rules_executed + 1 },
         [rSkipResult rid rname (pyLowerStr ct)]) := by
    simp [rExecuteRule, h2]
  exact ⟨hv, rfl, rfl, by rw [hv], by rw [hv], hr, rfl, rfl, by rw [hr], by rw [hr]⟩

/-- Witness for C8 at a concrete input: the unknown check type "median". -/
theorem unknown_check_type_spec_witness :
    ((pyLowerStr "median" ∉ vKnownCheckTypes)
      ∧ (pyLowerStr "median" ∉ rKnownCheckTypes))
    ∧ (vExecuteRule initVSummary "R9" "Rule" "median"
          (CheckBehavior.run "ERROR" "c" 0 [])
        = ({ initVSummary with rules_executed := initVSummary.rules_executed + 1 },
           [vSkipResult "R9" "Rule" (pyLowerStr "median")])
      ∧ (vSkipResult "R9" "Rule" (pyLowerStr "median")).status = "SKIP"
      ∧ (vSkipResult "R9" "Rule" (pyLowerStr "median")).severity = "WARNING"
      ∧ (vExecuteRule initVSummary "R9" "Rule" "median"
          (CheckBehavior.run "ERROR" "c" 0 [])).1.rules_passed
        = initVSummary.rules_passed
      ∧ (vExecuteRule initVSummary "R9" "Rule" "median"
          (CheckBehavior.run "ERROR" "c" 0 [])).1.rules_failed
        = initVSummary.rules_failed
      ∧ rExecuteRule initRSummary "R9" "Rule" "median"
          (RCheckBehavior.run (fun s => s) [])
        = ({ initRSummary with rules_executed := initRSummary.rules_executed + 1 },
           [rSkipResult "R9" "Rule" (pyLowerStr "median")])
      ∧ (rSkipResult "R9" "Rule" (pyLowerStr "median")).status = "SKIP"
      ∧ (rSkipResult "R9" "Rule" (pyLowerStr "median")).severity = "WARNING"
      ∧ (rExecuteRule initRSummary "R9" "Rule" "median"
          (RCheckBehavior.run (fun s => s) [])).1.rules_passed
        = initRSummary.rules_passed
      ∧ (rExecuteRule initRSummary "R9" "Rule" "median"
          (RCheckBehavior.run (fun s => s) [])).1.rules_failed
        = initRSummary.rules_failed) :=
  ⟨⟨by decide, by decide⟩,
    unknown_check_type_spec initVSummary initRSummary "R9" "Rule" "median"
      (CheckBehavior.run "ERROR" "c" 0 []) (RCheckBehavior.run (fun s => s) [])
      (by decide) (by decide)⟩

/-!
## Text similarity and the `fuzzy_match` check

`SequenceMatcher(None, a, b).ratio()` from Python's difflib is modelled
from the library's documented algorithm (the repository only calls it):
`find_longest_match` is the dynamic program over shared characters that
keeps the first longest run (lowest start indices win ties), matching
blocks are collected by recursing on the regions left and right of the
longest match, and the ratio is `2·M / T` with `M` the total matched
length and `T` the combined length.  The junk heuristics are inactive
here: the matcher is built with `isjunk=None` and autojunk only engages
for sequences longer than 199 characters.
-/

/-- difflib's `find_longest_match` on `a[alo:ahi]` / `b[blo:bhi]` with no
junk, returning `(besti, bestj, bestsize)`.  The running `j2len` row of
the dynamic program is carried as a function from positions of `b` to
run lengths. -/
def findLongestMatch (a b : List Char) (alo ahi blo bhi : Nat) : Nat × Nat × Nat :=
  let step := fun (acc : (Nat → Nat) × (Nat × Nat × Nat)) (i : Nat) =>
    let j2len := acc.1
    (List.range' blo (bhi - blo)).foldl
      (fun (acc2 : (Nat → Nat) × (Nat × Nat × Nat)) j =>
        if b.getD j 'a' = a.getD i 'a' then
          let k := (if blo < j then j2len (j - 1) else 0) + 1
          let newRow := fun x => if x = j then k else acc2.1 x
          if k > acc2.2.2.2 then (newRow, (i + 1 - k, j + 1 - k, k))
          else (newRow, acc2.2)
        else acc2)
      (fun _ => 0, acc.2)
  ((List.range' alo (ahi - alo)).foldl step (fun _ => 0, (alo, blo, 0))).2

/-- Total matched length over all matching blocks (difflib's
`get_matching_blocks` recursion); the fuel bounds the recursion depth
and `a.length + b.length + 1` always suffices. -/
def matchTotal (a b : List Char) : Nat → Nat → Nat → Nat → Nat → Nat
  | 0, _, _, _, _ => 0
  | fuel + 1, alo, ahi, blo, bhi =>
    let m := findLongestMatch a b alo ahi blo bhi
    if m.2.2 = 0 then 0
    else m.2.2 + matchTotal a b fuel alo m.1 blo m.2.1
      + matchTotal a b fuel (m.1 + m.2.2) ahi (m.2.1 + m.2.2) bhi

/-- `SequenceMatcher.ratio()`: `2·M / T`, and 1.0 when both sequences are
empty. -/
def seqRatio (a b : List Char) : ℚ :=
  if a.length + b.length = 0 then 1
  else 2 * (matchTotal a b (a.length + b.length + 1) 0 a.length 0 b.length : ℚ)
    / (a.length + b.length : ℚ)

/-- The similarity used by `_check_fuzzy_match` (src/recon_engine.py
lines 462-466): both values are stringified, lower-cased and fed to
`SequenceMatcher(...).ratio()`; this is also §4.3's case-insensitive
`similarity`. -/
def similarity (s1 s2 : String) : ℚ :=
  seqRatio (lcLower s1.data) (lcLower s2.data)

/-- Canonical stand-in for Python's `f"{q:.1f}"`-style percentage
rendering in free-text fields; no claim inspects these strings. -/
def pctString (q : ℚ) : String := toString q

/-- The FAIL-collecting loop of `_check_fuzzy_match` (src/recon_engine.py
lines 461-479) over the inner-joined pairs `(key, val1, val2)`: a pair
fails iff its similarity is strictly below the threshold (the rule's
tolerance divided by 100). -/
def fuzzyFails (rule_id rule_name : String) (threshold : ℚ) :
    List (String × String × String) → List RResult
  | [] => []
  | (key, v1, v2) :: rest =>
    if similarity v1 v2 < threshold then
      { rule_id := rule_id, rule_name := rule_name, record_key := key,
        source1_value := v1, source2_value := v2,
        difference := pctString (similarity v1 v2 * 100),
        status := "FAIL", severity := "WARNING",
        details := "Fuzzy match below threshold ("
          ++ pctString (similarity v1 v2 * 100) ++ "% < "
          ++ pctString (threshold * 100) ++ "%)" }
        :: fuzzyFails rule_id rule_name threshold rest
    else fuzzyFails rule_id rule_name threshold rest

/-- The aggregate PASS result of `_check_fuzzy_match` (lines 481-492). -/
def fuzzyPassResult (rule_id rule_name : String) (n : Nat) : RResult :=
  { rule_id := rule_id, rule_name := rule_name, record_key := "ALL",
    source1_value := toString n ++ " values",
    source2_value := toString n ++ " values",
    difference := "N/A", status := "PASS", severity := "INFO",
    details := "All " ++ toString n
      ++ " text values matched within similarity threshold" }

/-- `ReconciliationEngine._check_fuzzy_match` (lines 397-497) after both
sources resolved, columns verified and the inner join computed. -/
def checkFuzzyMatch (rule_id rule_name : String) (threshold : ℚ)
    (merged : List (String × String × String)) : List RResult :=
  let fails := fuzzyFails rule_id rule_name threshold merged
  if fails.isEmpty then [fuzzyPassResult rule_id rule_name merged.length]
  else fails

set_option maxRecDepth 10000 in
theorem similarity_smith_smyth :
    similarity "Robert Smith" "Robert Smyth" = 11 / 12 := by
  have hm : matchTotal (lcLower "Robert Smith".data)
      (lcLower "Robert Smyth".data) 25 0 12 0 12 = 11 := by decide
  have h1 : (lcLower "Robert Smith".data).length = 12 := by decide
  have h2 : (lcLower "Robert Smyth".data).length = 12 := by decide
  unfold similarity seqRatio
  rw [h1, h2]
  norm_num [hm]

/-- C6 counterexample: the similarity of "Robert Smith" and
"Robert Smyth" is 11/12 ≈ 0.9167, which is above 0.85 — but it is also
at least 0.90, so a `fuzzy_match` rule with threshold 90 emits no FAIL
for this pair; the claim's conjunction is false. -/
theorem fuzzy_threshold_counterexample :
    ¬ (similarity "Robert Smith" "Robert Smyth" > 85 / 100
       ∧ ∃ r ∈ checkFuzzyMatch "R1" "Name fuzzy" (90 / 100)
           [("K1", "Robert Smith", "Robert Smyth")], r.status = "FAIL") := by
  intro ⟨_, r, hr, hstatus⟩
  have hlt : ¬ similarity "Robert Smith" "Robert Smyth" < 90 / 100 := by
    rw [similarity_smith_smyth]
    norm_num
  have hfails : fuzzyFails "R1" "Name fuzzy" (90 / 100)
      [("K1", "Robert Smith", "Robert Smyth")] = [] := by
    unfold fuzzyFails
    rw [if_neg hlt]
    rfl
  rw [checkFuzzyMatch, hfails] at hr
  simp only [List.isEmpty_nil, if_true, List.mem_singleton] at hr
  rw [hr] at hstatus
  exact absurd hstatus (by simp [fuzzyPassResult])

/-- C6 amended: the similarity of "Robert Smith" and "Robert Smyth" is
11/12, which is greater than 0.85, and a `fuzzy_match` rule with
threshold 90 applied to a joined pair holding these two values yields
the single aggregate PASS result (11/12 ≥ 0.90), not a FAIL. -/
theorem fuzzy_threshold_amended :
    similarity "Robert Smith" "Robert Smyth" = 11 / 12
    ∧ (11 : ℚ) / 12 > 85 / 100
    ∧ checkFuzzyMatch "R1" "Name fuzzy" (90 / 100)
        [("K1", "Robert Smith", "Robert Smyth")]
      = [fuzzyPassResult "R1" "Name fuzzy" 1] := by
  refine ⟨similarity_smith_smyth, by norm_num, ?_⟩
  have hlt : ¬ similarity "Robert Smith" "Robert Smyth" < 90 / 100 := by
    rw [similarity_smith_smyth]
    norm_num
  have hfails : fuzzyFails "R1" "Name fuzzy" (90 / 100)
      [("K1", "Robert Smith", "Robert Smyth")] = [] := by
    unfold fuzzyFails
    rw [if_neg hlt]
    rfl
  rw [checkFuzzyMatch, hfails]
  rfl
